import Mathlib

/-!
Verification of the ingestion pipeline of `tmdownload.py`
(travellermap-dl): reference-data registry, UWP decoding, hierarchy
creation (Milieu / Sector / Subsector) and per-row World ingestion.

The embedding follows the source faithfully:
* the reference tables `STARPORT_DATA`, ..., `TECH_LEVEL_DATA` keep the
  `code` and `value` fields of every row of the Python constants (the
  purely descriptive text fields — `name`, `description`, `imperial`,
  `ce`, `remarks` — are omitted, as no code path under verification
  reads them);
* the SQLAlchemy `UniqueConstraint(...)` expressions written at class
  body level of `Sector`, `Subsector` and `World` are *not* placed in
  `__table_args__`, so they are never attached to the generated tables:
  the actual schema enforces no uniqueness on those tables.  Only the
  column-level `unique=True` markers (`milieus.name` and the `code`
  column of each reference table) are real constraints.  The embedding
  therefore performs no uniqueness check when committing Sector,
  Subsector or World rows;
* in `populate_database` the expression
  `starport, ..., _, tech_level, *_ = list(row["UWP"])` is evaluated
  *outside* the per-row `try` block, so a missing `UWP` column
  (KeyError) or a UWP shorter than 9 characters (ValueError) escapes
  the function uncaught; the embedding models this as an `uncaught`
  abort that stops the row loop, while the database keeps everything
  committed so far;
* the caught exceptions (`NoResultFound`, `IntegrityError`, `KeyError`
  inside the `try`) roll the row back and continue with the next row.
-/

/-- One row of a reference table: the single-character `code` column and
the optional numeric `value` column (`None` for unknown/sentinel codes). -/
structure RefEntry where
  code : Char
  value : Option Nat
deriving DecidableEq

/-- `STARPORT_DATA` of the source (codes and values). -/
def STARPORT_DATA : List RefEntry :=
  [⟨'?', none⟩, ⟨'A', some 10⟩, ⟨'B', some 11⟩, ⟨'C', some 12⟩, ⟨'D', some 13⟩,
   ⟨'E', some 14⟩, ⟨'X', some 31⟩, ⟨'F', some 15⟩, ⟨'G', some 16⟩, ⟨'H', some 17⟩,
   ⟨'Y', some 32⟩]

/-- `SIZE_DATA` of the source (codes and values). -/
def SIZE_DATA : List RefEntry :=
  [⟨'?', none⟩, ⟨'0', some 0⟩, ⟨'1', some 1⟩, ⟨'2', some 2⟩, ⟨'3', some 3⟩,
   ⟨'4', some 4⟩, ⟨'5', some 5⟩, ⟨'6', some 6⟩, ⟨'7', some 7⟩, ⟨'8', some 8⟩,
   ⟨'9', some 9⟩, ⟨'A', some 10⟩, ⟨'B', some 11⟩, ⟨'C', some 12⟩, ⟨'D', some 13⟩,
   ⟨'E', some 14⟩, ⟨'F', some 15⟩, ⟨'Y', some 32⟩, ⟨'X', none⟩]

/-- `ATMOSPHERE_DATA` of the source (codes and values). -/
def ATMOSPHERE_DATA : List RefEntry :=
  [⟨'?', none⟩, ⟨'0', some 0⟩, ⟨'1', some 1⟩, ⟨'2', some 2⟩, ⟨'3', some 3⟩,
   ⟨'4', some 4⟩, ⟨'5', some 5⟩, ⟨'6', some 6⟩, ⟨'7', some 7⟩, ⟨'8', some 8⟩,
   ⟨'9', some 9⟩, ⟨'A', some 10⟩, ⟨'B', some 11⟩, ⟨'C', some 12⟩, ⟨'D', some 13⟩,
   ⟨'E', some 14⟩, ⟨'F', some 15⟩, ⟨'V', some 29⟩, ⟨'X', none⟩]

/-- `HYDROSPHERE_DATA` of the source (codes and values). -/
def HYDROSPHERE_DATA : List RefEntry :=
  [⟨'?', none⟩, ⟨'0', some 0⟩, ⟨'1', some 1⟩, ⟨'2', some 2⟩, ⟨'3', some 3⟩,
   ⟨'4', some 4⟩, ⟨'5', some 5⟩, ⟨'6', some 6⟩, ⟨'7', some 7⟩, ⟨'8', some 8⟩,
   ⟨'9', some 9⟩, ⟨'A', some 10⟩, ⟨'V', some 29⟩, ⟨'X', none⟩]

/-- `GOVERNMENT_DATA` of the source (codes and values). -/
def GOVERNMENT_DATA : List RefEntry :=
  [⟨'?', none⟩, ⟨'0', some 0⟩, ⟨'1', some 1⟩, ⟨'2', some 2⟩, ⟨'3', some 3⟩,
   ⟨'4', some 4⟩, ⟨'5', some 5⟩, ⟨'6', some 6⟩, ⟨'7', some 7⟩, ⟨'8', some 8⟩,
   ⟨'9', some 9⟩, ⟨'A', some 10⟩, ⟨'B', some 11⟩, ⟨'C', some 12⟩, ⟨'D', some 13⟩,
   ⟨'E', some 14⟩, ⟨'F', some 15⟩, ⟨'G', some 16⟩, ⟨'H', some 17⟩, ⟨'J', some 18⟩,
   ⟨'K', some 19⟩, ⟨'L', some 20⟩, ⟨'M', some 21⟩, ⟨'N', some 22⟩, ⟨'P', some 23⟩,
   ⟨'Q', some 24⟩, ⟨'R', some 25⟩, ⟨'S', some 26⟩, ⟨'T', some 27⟩, ⟨'U', some 28⟩,
   ⟨'V', some 29⟩, ⟨'W', some 30⟩, ⟨'X', some 31⟩, ⟨'Y', some 32⟩, ⟨'Z', none⟩]

/-- `POPULATION_DATA` of the source (codes and values). -/
def POPULATION_DATA : List RefEntry :=
  [⟨'?', none⟩, ⟨'0', some 0⟩, ⟨'1', some 1⟩, ⟨'2', some 2⟩, ⟨'3', some 3⟩,
   ⟨'4', some 4⟩, ⟨'5', some 5⟩, ⟨'6', some 6⟩, ⟨'7', some 7⟩, ⟨'8', some 8⟩,
   ⟨'9', some 9⟩, ⟨'A', some 10⟩, ⟨'B', some 11⟩, ⟨'C', some 12⟩, ⟨'D', some 13⟩,
   ⟨'E', some 14⟩, ⟨'F', some 15⟩, ⟨'X', none⟩]

/-- `LAW_LEVEL_DATA` of the source (codes and values). -/
def LAW_LEVEL_DATA : List RefEntry :=
  [⟨'?', none⟩, ⟨'0', some 0⟩, ⟨'1', some 1⟩, ⟨'2', some 2⟩, ⟨'3', some 3⟩,
   ⟨'4', some 4⟩, ⟨'5', some 5⟩, ⟨'6', some 6⟩, ⟨'7', some 7⟩, ⟨'8', some 8⟩,
   ⟨'9', some 9⟩, ⟨'A', some 10⟩, ⟨'B', some 11⟩, ⟨'C', some 12⟩, ⟨'D', some 13⟩,
   ⟨'E', some 14⟩, ⟨'F', some 15⟩, ⟨'G', some 16⟩, ⟨'H', some 17⟩, ⟨'J', some 18⟩,
   ⟨'K', some 19⟩, ⟨'L', some 20⟩, ⟨'S', some 26⟩, ⟨'T', some 27⟩, ⟨'U', some 28⟩,
   ⟨'V', some 29⟩, ⟨'X', none⟩]

/-- `TECH_LEVEL_DATA` of the source (codes and values). -/
def TECH_LEVEL_DATA : List RefEntry :=
  [⟨'?', none⟩, ⟨'0', some 0⟩, ⟨'1', some 1⟩, ⟨'2', some 2⟩, ⟨'3', some 3⟩,
   ⟨'4', some 4⟩, ⟨'5', some 5⟩, ⟨'6', some 6⟩, ⟨'7', some 7⟩, ⟨'8', some 8⟩,
   ⟨'9', some 9⟩, ⟨'A', some 10⟩, ⟨'B', some 11⟩, ⟨'C', some 12⟩, ⟨'D', some 13⟩,
   ⟨'E', some 14⟩, ⟨'F', some 15⟩, ⟨'G', some 16⟩, ⟨'H', some 17⟩, ⟨'J', some 18⟩,
   ⟨'K', some 19⟩, ⟨'L', some 20⟩, ⟨'M', some 21⟩, ⟨'N', some 22⟩, ⟨'P', some 23⟩,
   ⟨'Q', some 24⟩, ⟨'R', some 25⟩, ⟨'S', some 26⟩, ⟨'T', some 27⟩, ⟨'U', some 28⟩,
   ⟨'V', some 29⟩, ⟨'W', some 30⟩, ⟨'X', some 31⟩]

/-- `get_relation(entity, key, session)` of the source:
`session.query(entity).filter_by(code=key).one()`.  Every table's `code`
column is unique (column-level `unique=True`), so `.one()` either returns
the single row with that code or raises `NoResultFound`; the embedding
returns `none` for the raised case. -/
def get_relation (entity : List RefEntry) (key : Char) : Option RefEntry :=
  entity.find? (fun e => e.code == key)

/-- The eight single-character codes produced by the unpacking
`starport, size, atmosphere, hydrosphere, population, government,
law_level, _, tech_level, *_ = list(row["UWP"])`. -/
structure UWPCodes where
  starport : Char
  size : Char
  atmosphere : Char
  hydrosphere : Char
  population : Char
  government : Char
  law_level : Char
  tech_level : Char
deriving DecidableEq

/-- The tuple unpacking of `list(row["UWP"])`: positions 0–6 and 8 are
bound, position 7 is bound to `_` and discarded, positions ≥ 9 go to the
starred rest.  Fewer than 9 characters raise `ValueError` (modelled as
`none`). -/
def decodeUWP : List Char → Option UWPCodes
  | c0 :: c1 :: c2 :: c3 :: c4 :: c5 :: c6 :: _ :: c8 :: _ =>
      some ⟨c0, c1, c2, c3, c4, c5, c6, c8⟩
  | _ => none

/-- A committed row of the `milieus` table. -/
structure MilieuRow where
  name : String
deriving DecidableEq

/-- A committed row of the `sectors` table.  `milieu_id` indexes into
`DB.milieus`. -/
structure SectorRow where
  name : String
  x_coordinate : Int
  y_coordinate : Int
  milieu_id : Nat
deriving DecidableEq

/-- A committed row of the `subsectors` table.  `sector_id` indexes into
`DB.sectors`. -/
structure SubsectorRow where
  name : String
  index : String
  sector_id : Nat
deriving DecidableEq

/-- A committed row of the `worlds` table.  `subsector_id` indexes into
`DB.subsectors`; the eight reference associations hold the resolved
reference-table rows (the foreign keys of the source).  `trade_codes` is
never assigned by `populate_database` (always NULL) and is omitted. -/
structure WorldRow where
  name : String
  subsector_id : Nat
  hex_location : String
  starport : RefEntry
  size : RefEntry
  atmosphere : RefEntry
  hydrosphere : RefEntry
  population : RefEntry
  government : RefEntry
  law_level : RefEntry
  tech_level : RefEntry
  zone : String
  bases : String
deriving DecidableEq

/-- Python f-string interpolation of a nullable integer column:
`f"{None}"` is `"None"`, `f"{n}"` is the decimal digits. -/
def showValue : Option Nat → String
  | none => "None"
  | some n => toString n

/-- The `World.uwp` property of the source:
`f"{starport.value}{size.value}{atmosphere.value}{hydrosphere.value}`
`{population.value}{government.value}{law_level.value}-{tech_level.value}"`.
Note it interpolates the numeric `value` column of each reference row. -/
def WorldRow.uwp (w : WorldRow) : String :=
  showValue w.starport.value ++ showValue w.size.value ++ showValue w.atmosphere.value ++
    showValue w.hydrosphere.value ++ showValue w.population.value ++
    showValue w.government.value ++ showValue w.law_level.value ++ "-" ++
    showValue w.tech_level.value

/-- The committed state of the relational store (the four mutable
tables; the eight reference tables are the immutable constants above). -/
structure DB where
  milieus : List MilieuRow
  sectors : List SectorRow
  subsectors : List SubsectorRow
  worlds : List WorldRow
deriving DecidableEq

/-- The store right after `init_database`: reference data seeded, all
four hierarchy/world tables empty. -/
def emptyDB : DB := ⟨[], [], [], []⟩

/-- A subsector descriptor of the sector metadata (`ApiSubsector`):
name and one-letter grid index. -/
structure ApiSubsectorM where
  name : String
  index : String
deriving DecidableEq

/-- The sector metadata consumed by `populate_database`
(`sector.names[0].text`, `sector.milieu`, `sector.x`, `sector.y`,
`sector.subsectors`). -/
structure ApiSectorM where
  name : String
  milieu : String
  x : Int
  y : Int
  subsectors : List ApiSubsectorM
deriving DecidableEq

/-- `d[k] = v` on a Python dict: replace the value in place when the key
exists (keeping its position), otherwise append the pair. -/
def dictInsert (d : List (String × ApiSubsectorM)) (k : String) (v : ApiSubsectorM) :
    List (String × ApiSubsectorM) :=
  if d.any (fun kv => kv.1 == k) then
    d.map (fun kv => if kv.1 == k then (k, v) else kv)
  else
    d ++ [(k, v)]

/-- The `db_subsectors` dict built by the loop over `sector.subsectors`:
one entry per index, later descriptors with a duplicate index replacing
earlier ones. -/
def buildSubsectorDict (subs : List ApiSubsectorM) : List (String × ApiSubsectorM) :=
  subs.foldl (fun d s => dictInsert d s.index s) []

/-- `session.query(Milieu).filter_by(name=...).first()`: the index of
the first milieu row with the given name, if any. -/
def findMilieu (milieus : List MilieuRow) (name : String) : Option Nat :=
  milieus.findIdx? (fun m => m.name == name)

/-- The state after the hierarchy commit: the updated store and the
`db_subsectors` map from index letter to committed subsector row id. -/
structure HierarchyResult where
  db : DB
  subsectorMap : List (String × Nat)
deriving DecidableEq

/-- Lines 460–473 of the source: find-or-create the Milieu by name, add
a new Sector (no uniqueness check — the class-body `UniqueConstraint` is
not attached to the table), build the `db_subsectors` dict, add all its
values, and commit everything as one unit. -/
def commitHierarchy (sector : ApiSectorM) (db : DB) : HierarchyResult :=
  let milieu_id := match findMilieu db.milieus sector.milieu with
    | some i => i
    | none => db.milieus.length
  let milieus' := match findMilieu db.milieus sector.milieu with
    | some _ => db.milieus
    | none => db.milieus ++ [⟨sector.milieu⟩]
  let sector_id := db.sectors.length
  let sectors' := db.sectors ++ [⟨sector.name, sector.x, sector.y, milieu_id⟩]
  let dict := buildSubsectorDict sector.subsectors
  let base := db.subsectors.length
  let newSubs := dict.map (fun kv => SubsectorRow.mk kv.2.name kv.2.index sector_id)
  let smap := dict.enum.map (fun p => (p.2.1, base + p.1))
  ⟨⟨milieus', sectors', db.subsectors ++ newSubs, db.worlds⟩, smap⟩

/-- A tab-delimited row as produced by `csv.DictReader`: an association
list from column name to cell value.  A required column missing from the
file is a key missing from the list. -/
abbrev Row := List (String × String)

/-- `row[key]`: `some` the first value for the key, `none` for the
KeyError case. -/
def rowGet (row : Row) (key : String) : Option String :=
  (row.find? (fun kv => kv.1 == key)).map (fun kv => kv.2)

/-- `row.get(key, d)`: lookup with a default, never failing. -/
def rowGetD (row : Row) (key : String) (d : String) : String :=
  (rowGet row key).getD d

/-- The `World(...)` constructor call of lines 485–499, with its
argument evaluation order: `row["Name"]`, `db_subsectors[row["SS"]]`,
`row["Hex"]`, then the eight `get_relation` calls in UWP order, then the
defaulted `Zone` and `Bases`.  `none` models the caught exceptions
(`KeyError` from the row or the dict, `NoResultFound` from
`get_relation`). -/
def tryBuildWorld (smap : List (String × Nat)) (row : Row) (codes : UWPCodes) :
    Option WorldRow :=
  (rowGet row "Name").bind fun name =>
  (rowGet row "SS").bind fun ss =>
  ((smap.find? (fun kv => kv.1 == ss)).map (fun kv => kv.2)).bind fun subsector_id =>
  (rowGet row "Hex").bind fun hex =>
  (get_relation STARPORT_DATA codes.starport).bind fun starport =>
  (get_relation SIZE_DATA codes.size).bind fun size =>
  (get_relation ATMOSPHERE_DATA codes.atmosphere).bind fun atmosphere =>
  (get_relation HYDROSPHERE_DATA codes.hydrosphere).bind fun hydrosphere =>
  (get_relation POPULATION_DATA codes.population).bind fun population =>
  (get_relation GOVERNMENT_DATA codes.government).bind fun government =>
  (get_relation LAW_LEVEL_DATA codes.law_level).bind fun law_level =>
  (get_relation TECH_LEVEL_DATA codes.tech_level).map fun tech_level =>
  ⟨name, subsector_id, hex, starport, size, atmosphere, hydrosphere, population,
    government, law_level, tech_level, rowGetD row "Zone" "", rowGetD row "Bases" ""⟩

/-- The three possible fates of one row of the loop body. -/
inductive RowOutcome where
  /-- `session.add(world)` followed by `session.commit()` (no active
  uniqueness constraint on `worlds`, so the commit always succeeds). -/
  | committed (w : WorldRow)
  /-- A caught exception: logged, `session.rollback()`, next row. -/
  | skip
  /-- An exception raised outside the `try` block: propagates out of
  `populate_database` uncaught. -/
  | abort (msg : String)
deriving DecidableEq

/-- One iteration of the row loop (lines 477–514).  `row["UWP"]` and the
tuple unpacking run before the `try` block, so their failures abort the
whole call; failures inside `World(...)` are caught and skip the row. -/
def ingestOneRow (smap : List (String × Nat)) (row : Row) : RowOutcome :=
  match rowGet row "UWP" with
  | none => .abort "KeyError: UWP"
  | some uwp =>
    match decodeUWP uwp.data with
    | none => .abort "ValueError: not enough values to unpack"
    | some codes =>
      match tryBuildWorld smap row codes with
      | none => .skip
      | some w => .committed w

/-- The observable result of `populate_database`: the committed store,
the number of logged skipped rows, and the uncaught exception, if the
call was aborted by one. -/
structure IngestResult where
  db : DB
  skips : Nat
  uncaught : Option String
deriving DecidableEq

/-- The row loop: each committed World is its own transaction (appended
immediately), a skipped row leaves the store untouched and increments
the skip log, and an uncaught exception stops the loop with the store as
committed so far. -/
def ingestRows (smap : List (String × Nat)) :
    List Row → DB → Nat → IngestResult
  | [], db, k => ⟨db, k, none⟩
  | row :: rest, db, k =>
    match ingestOneRow smap row with
    | .committed w => ingestRows smap rest { db with worlds := db.worlds ++ [w] } k
    | .skip => ingestRows smap rest db (k + 1)
    | .abort msg => ⟨db, k, some msg⟩

/-- `populate_database(sector, sector_dir, session)`: commit the
Milieu/Sector/Subsector hierarchy as one unit, then ingest the rows of
the sector's TSV file one transaction per row. -/
def populate_database (sector : ApiSectorM) (rows : List Row) (db : DB) : IngestResult :=
  let h := commitHierarchy sector db
  ingestRows h.subsectorMap rows h.db 0

/-! Concrete scenario material (from §8 of the specification). -/

/-- The §8 scenario sector: "Spinward Marches", milieu "M1105",
coordinates (-4, -1), one subsector `A` named "Trojan Reach". -/
def reginaSectorMeta : ApiSectorM :=
  ⟨"Spinward Marches", "M1105", -4, -1, [⟨"Trojan Reach", "A"⟩]⟩

/-- The §8 scenario row for the world Regina. -/
def reginaRow : Row :=
  [("Name", "Regina"), ("SS", "A"), ("Hex", "1910"), ("UWP", "A867A67-9"),
   ("Zone", "G"), ("Bases", "N")]

/-- The §8 scenario sector for the re-ingestion scenario. -/
def reginaSectorMeta2 : ApiSectorM :=
  ⟨"Regina-Sector", "M1105", -4, -1, [⟨"Trojan Reach", "A"⟩]⟩

/-- Two rows sharing subsector `A` and hex `0101`. -/
def hexRow1 : Row :=
  [("Name", "First"), ("SS", "A"), ("Hex", "0101"), ("UWP", "A867A67-9")]

/-- Second row with the same subsector and hex as `hexRow1`. -/
def hexRow2 : Row :=
  [("Name", "Second"), ("SS", "A"), ("Hex", "0101"), ("UWP", "B867A67-9")]

/-- A row whose UWP is only 3 characters long. -/
def shortUwpRow : Row :=
  [("Name", "Shorty"), ("SS", "A"), ("Hex", "0202"), ("UWP", "A86")]

/-- A row lacking the `UWP` column. -/
def noUwpRow : Row :=
  [("Name", "NoProfile"), ("SS", "A"), ("Hex", "0303")]

/-- A row lacking the `Name` column. -/
def noNameRow : Row :=
  [("SS", "A"), ("Hex", "0404"), ("UWP", "A867A67-9")]

/-- A row whose starport code `q` resolves in no reference table. -/
def badStarportRow : Row :=
  [("Name", "Badport"), ("SS", "A"), ("Hex", "0303"), ("UWP", "q867A67-9")]

/-- The §8 scenario row with subsector index `Z`, undefined in the
sector. -/
def brokenRow : Row :=
  [("Name", "Broken"), ("SS", "Z"), ("Hex", "0101"), ("UWP", "X000000-0")]

/-- The fully resolved World committed for `reginaRow` under
`reginaSectorMeta`. -/
def reginaWorld : WorldRow :=
  ⟨"Regina", 0, "1910", ⟨'A', some 10⟩, ⟨'8', some 8⟩, ⟨'6', some 6⟩, ⟨'7', some 7⟩,
   ⟨'A', some 10⟩, ⟨'6', some 6⟩, ⟨'7', some 7⟩, ⟨'9', some 9⟩, "G", "N"⟩

/-! Helper lemmas. -/

/-- Binding an `Option` into a constantly failing continuation fails. -/
theorem bind_const_none {α β : Type} (x : Option α) :
    x.bind (fun _ => (none : Option β)) = none := by
  cases x <;> rfl

/-- A list of fewer than 9 characters fails the tuple unpacking. -/
theorem decodeUWP_eq_none_of_short :
    ∀ (l : List Char), l.length < 9 → decodeUWP l = none
  | [], _ => rfl
  | [_], _ => rfl
  | [_, _], _ => rfl
  | [_, _, _], _ => rfl
  | [_, _, _, _], _ => rfl
  | [_, _, _, _, _], _ => rfl
  | [_, _, _, _, _, _], _ => rfl
  | [_, _, _, _, _, _, _], _ => rfl
  | [_, _, _, _, _, _, _, _], _ => rfl
  | _ :: _ :: _ :: _ :: _ :: _ :: _ :: _ :: _ :: _, h => by
      simp only [List.length_cons] at h
      omega

/-- If any of the eight reference lookups fails, the `World(...)` call
raises and no World is produced. -/
theorem tryBuildWorld_none_of_lookup_fail (smap : List (String × Nat)) (row : Row)
    (codes : UWPCodes)
    (hfail : get_relation STARPORT_DATA codes.starport = none ∨
      get_relation SIZE_DATA codes.size = none ∨
      get_relation ATMOSPHERE_DATA codes.atmosphere = none ∨
      get_relation HYDROSPHERE_DATA codes.hydrosphere = none ∨
      get_relation POPULATION_DATA codes.population = none ∨
      get_relation GOVERNMENT_DATA codes.government = none ∨
      get_relation LAW_LEVEL_DATA codes.law_level = none ∨
      get_relation TECH_LEVEL_DATA codes.tech_level = none) :
    tryBuildWorld smap row codes = none := by
  rcases hfail with h | h | h | h | h | h | h | h <;>
    simp only [tryBuildWorld, h, Option.none_bind, Option.map_none', bind_const_none]

/-- World ingestion never touches the hierarchy tables and only ever
appends to the `worlds` table. -/
theorem ingestRows_frame (smap : List (String × Nat)) (rows : List Row) :
    ∀ (db : DB) (k : Nat),
      (ingestRows smap rows db k).db.milieus = db.milieus ∧
      (ingestRows smap rows db k).db.sectors = db.sectors ∧
      (ingestRows smap rows db k).db.subsectors = db.subsectors ∧
      ∃ tail, (ingestRows smap rows db k).db.worlds = db.worlds ++ tail := by
  induction rows with
  | nil =>
    intro db k
    exact ⟨rfl, rfl, rfl, [], by simp [ingestRows]⟩
  | cons r rs ih =>
    intro db k
    cases h : ingestOneRow smap r with
    | committed w =>
      obtain ⟨hm, hs, hsub, tail, hw⟩ := ih { db with worlds := db.worlds ++ [w] } k
      refine ⟨?_, ?_, ?_, w :: tail, ?_⟩ <;>
        simp [ingestRows, h, hm, hs, hsub, hw]
    | skip =>
      obtain ⟨hm, hs, hsub, tail, hw⟩ := ih db (k + 1)
      refine ⟨?_, ?_, ?_, tail, ?_⟩ <;>
        simp [ingestRows, h, hm, hs, hsub, hw]
    | abort msg =>
      refine ⟨?_, ?_, ?_, [], ?_⟩ <;> simp [ingestRows, h]

/-! Claim theorems. -/

/-- C1: the round-trip law fails on the code.  For the §8 Regina row
(UWP `A867A67-9`, all eight codes resolving), the World is committed,
but its profile string — the `World.uwp` property, which interpolates
the numeric `value` column of each reference row instead of its `code`
— is `"108671067-9"`, not the first 9 characters of the input. -/
theorem C1_profile_value_bug :
    (populate_database reginaSectorMeta [reginaRow] emptyDB).uncaught = none ∧
    (populate_database reginaSectorMeta [reginaRow] emptyDB).skips = 0 ∧
    (populate_database reginaSectorMeta [reginaRow] emptyDB).db.worlds.map WorldRow.uwp =
      ["108671067-9"] ∧
    "108671067-9" ≠ "A867A67-9" := by decide

/-- C2: re-running hierarchy creation for the already-ingested pair
`(name="Regina-Sector", milieu="M1105")` raises nothing and silently
commits a second Sector row with the same name and milieu: the
`UniqueConstraint("name", "milieu_id")` in the `Sector` class body is
never attached to the table, so no uniqueness violation occurs. -/
theorem C2_rerun_creates_duplicate_sector :
    (populate_database reginaSectorMeta2 [] emptyDB).uncaught = none ∧
    (populate_database reginaSectorMeta2 []
        (populate_database reginaSectorMeta2 [] emptyDB).db).uncaught = none ∧
    (populate_database reginaSectorMeta2 []
        (populate_database reginaSectorMeta2 [] emptyDB).db).db.sectors =
      [⟨"Regina-Sector", -4, -1, 0⟩, ⟨"Regina-Sector", -4, -1, 0⟩] ∧
    (populate_database reginaSectorMeta2 []
        (populate_database reginaSectorMeta2 [] emptyDB).db).db.milieus =
      [⟨"M1105"⟩] := by decide

/-- C3: inserting a World whose hex duplicates an already-committed
World of the same Subsector is not rejected: both rows commit, because
the `UniqueConstraint("hex_location", "subsector_id")` in the `World`
class body is never attached to the table. -/
theorem C3_duplicate_hex_both_committed :
    (populate_database reginaSectorMeta [hexRow1, hexRow2] emptyDB).uncaught = none ∧
    (populate_database reginaSectorMeta [hexRow1, hexRow2] emptyDB).skips = 0 ∧
    (populate_database reginaSectorMeta [hexRow1, hexRow2] emptyDB).db.worlds.map
        (fun w => (w.name, w.hex_location, w.subsector_id)) =
      [("First", "0101", 0), ("Second", "0101", 0)] := by decide

/-- C4 counterexample: a row with the 3-character UWP `A86` raises an
uncaught `ValueError` (the unpacking runs outside the `try` block), so
ingestion does not continue with the next row: the following valid
Regina row — which commits when ingested on its own — produces no
World. -/
theorem C4_counterexample :
    (populate_database reginaSectorMeta [shortUwpRow, reginaRow] emptyDB).uncaught =
      some "ValueError: not enough values to unpack" ∧
    (populate_database reginaSectorMeta [shortUwpRow, reginaRow] emptyDB).db.worlds = [] ∧
    (populate_database reginaSectorMeta [reginaRow] emptyDB).db.worlds.length = 1 := by decide

/-- C4 amended: a row whose UWP is shorter than 9 characters never
produces a committed World and leaves the store exactly as it was, but
the failure is not row-local: the unpacking `ValueError` escapes the
row loop uncaught, so the remaining rows of the sector are not
processed. -/
theorem C4_short_uwp_aborts_sector (smap : List (String × Nat)) (db : DB) (k : Nat)
    (row : Row) (rest : List Row) (u : String)
    (hu : rowGet row "UWP" = some u) (hlen : u.data.length < 9) :
    ingestRows smap (row :: rest) db k =
      ⟨db, k, some "ValueError: not enough values to unpack"⟩ := by
  have hd : decodeUWP u.data = none := decodeUWP_eq_none_of_short u.data hlen
  simp [ingestRows, ingestOneRow, hu, hd]

/-- C4 witness: the amended statement at the concrete short-UWP row. -/
theorem C4_short_uwp_aborts_sector_witness :
    ingestRows [("A", 0)] [shortUwpRow, reginaRow] emptyDB 0 =
      ⟨emptyDB, 0, some "ValueError: not enough values to unpack"⟩ :=
  C4_short_uwp_aborts_sector [("A", 0)] emptyDB 0 shortUwpRow [reginaRow] "A86"
    (by decide) (by decide)

/-- C5: when some decoded code has no matching entry in its reference
table, the `NoResultFound` raised by `get_relation` is caught at the row
boundary: no World is committed for the row, the store is left exactly
as it was (the rollback discards the row's pending state), one skip is
logged, and ingestion proceeds with the remaining rows. -/
theorem C5_lookup_failure_skips_row (smap : List (String × Nat)) (db : DB) (k : Nat)
    (row : Row) (rest : List Row) (u : String) (codes : UWPCodes)
    (hu : rowGet row "UWP" = some u) (hd : decodeUWP u.data = some codes)
    (hfail : get_relation STARPORT_DATA codes.starport = none ∨
      get_relation SIZE_DATA codes.size = none ∨
      get_relation ATMOSPHERE_DATA codes.atmosphere = none ∨
      get_relation HYDROSPHERE_DATA codes.hydrosphere = none ∨
      get_relation POPULATION_DATA codes.population = none ∨
      get_relation GOVERNMENT_DATA codes.government = none ∨
      get_relation LAW_LEVEL_DATA codes.law_level = none ∨
      get_relation TECH_LEVEL_DATA codes.tech_level = none) :
    ingestOneRow smap row = RowOutcome.skip ∧
    ingestRows smap (row :: rest) db k = ingestRows smap rest db (k + 1) := by
  have htb : tryBuildWorld smap row codes = none :=
    tryBuildWorld_none_of_lookup_fail smap row codes hfail
  have hone : ingestOneRow smap row = RowOutcome.skip := by
    simp [ingestOneRow, hu, hd, htb]
  exact ⟨hone, by simp [ingestRows, hone]⟩

/-- C5 witness: the row with unresolvable starport code `q` is skipped
and ingestion continues. -/
theorem C5_lookup_failure_skips_row_witness :
    ingestOneRow [("A", 0)] badStarportRow = RowOutcome.skip ∧
    ingestRows [("A", 0)] [badStarportRow] emptyDB 0 =
      ingestRows [("A", 0)] [] emptyDB 1 :=
  C5_lookup_failure_skips_row [("A", 0)] emptyDB 0 badStarportRow [] "q867A67-9"
    ⟨'q', '8', '6', '7', 'A', '6', '7', '9'⟩ (by decide) (by decide)
    (Or.inl (by decide))

/-- C6: a row whose `SS` value matches no Subsector of the sector raises
a `KeyError` on the `db_subsectors` dict, caught at the row boundary:
no World is committed, exactly one skip is logged, and ingestion
continues with the subsequent rows. -/
theorem C6_unresolved_subsector_skips_row (smap : List (String × Nat)) (db : DB)
    (k : Nat) (row : Row) (rest : List Row) (u : String) (codes : UWPCodes)
    (ss : String)
    (hu : rowGet row "UWP" = some u) (hd : decodeUWP u.data = some codes)
    (hss : rowGet row "SS" = some ss)
    (hm : smap.find? (fun kv => kv.1 == ss) = none) :
    ingestOneRow smap row = RowOutcome.skip ∧
    ingestRows smap (row :: rest) db k = ingestRows smap rest db (k + 1) := by
  have htb : tryBuildWorld smap row codes = none := by
    cases hn : rowGet row "Name" with
    | none => simp [tryBuildWorld, hn]
    | some name => simp [tryBuildWorld, hn, hss, hm]
  have hone : ingestOneRow smap row = RowOutcome.skip := by
    simp [ingestOneRow, hu, hd, htb]
  exact ⟨hone, by simp [ingestRows, hone]⟩

/-- C6 witness: the §8 `Broken` row with `SS=Z` in a sector defining
only subsector `A` is skipped and ingestion continues. -/
theorem C6_unresolved_subsector_skips_row_witness :
    ingestOneRow [("A", 0)] brokenRow = RowOutcome.skip ∧
    ingestRows [("A", 0)] [brokenRow] emptyDB 0 =
      ingestRows [("A", 0)] [] emptyDB 1 :=
  C6_unresolved_subsector_skips_row [("A", 0)] emptyDB 0 brokenRow [] "X000000-0"
    ⟨'X', '0', '0', '0', '0', '0', '0', '0'⟩ "Z" (by decide) (by decide) (by decide)
    (by decide)

/-- C7 counterexample: a row lacking the `UWP` column raises an uncaught
`KeyError` (the `row["UWP"]` access runs outside the `try` block), so
the error is not row-local: the following valid Regina row — which
commits when ingested on its own — produces no World. -/
theorem C7_counterexample :
    (populate_database reginaSectorMeta [noUwpRow, reginaRow] emptyDB).uncaught =
      some "KeyError: UWP" ∧
    (populate_database reginaSectorMeta [noUwpRow, reginaRow] emptyDB).db.worlds = [] ∧
    (populate_database reginaSectorMeta [reginaRow] emptyDB).db.worlds.length = 1 := by
  decide

/-- C7 amended: a row lacking `Name`, `SS` or `Hex` is row-local — the
`KeyError` is caught, no World is committed, the store is unchanged and
ingestion continues with the next row — but a row lacking `UWP` raises
an uncaught `KeyError` that stops ingestion of the sector (no World for
that row, and the remaining rows are not processed). -/
theorem C7_missing_column_behaviour (smap : List (String × Nat)) (db : DB) (k : Nat)
    (row : Row) (rest : List Row) :
    (rowGet row "UWP" = none →
      ingestRows smap (row :: rest) db k = ⟨db, k, some "KeyError: UWP"⟩) ∧
    (∀ (u : String) (codes : UWPCodes),
      rowGet row "UWP" = some u → decodeUWP u.data = some codes →
      (rowGet row "Name" = none ∨ rowGet row "SS" = none ∨ rowGet row "Hex" = none) →
      ingestRows smap (row :: rest) db k = ingestRows smap rest db (k + 1)) := by
  constructor
  · intro hu
    simp [ingestRows, ingestOneRow, hu]
  · intro u codes hu hd hmiss
    have htb : tryBuildWorld smap row codes = none := by
      rcases hmiss with h | h | h
      · simp only [tryBuildWorld, h, Option.none_bind]
      · cases hn : rowGet row "Name" with
        | none => simp only [tryBuildWorld, hn, Option.none_bind]
        | some nm =>
          simp only [tryBuildWorld, hn, h, Option.some_bind, Option.none_bind]
      · cases hn : rowGet row "Name" with
        | none => simp only [tryBuildWorld, hn, Option.none_bind]
        | some nm =>
          cases hs : rowGet row "SS" with
          | none => simp only [tryBuildWorld, hn, hs, Option.some_bind, Option.none_bind]
          | some ss =>
            cases hf : smap.find? (fun kv => kv.1 == ss) with
            | none =>
              simp only [tryBuildWorld, hn, hs, hf, Option.some_bind,
                Option.map_none', Option.none_bind]
            | some kv =>
              simp only [tryBuildWorld, hn, hs, hf, h, Option.some_bind,
                Option.map_some', Option.none_bind]
    have hone : ingestOneRow smap row = RowOutcome.skip := by
      simp [ingestOneRow, hu, hd, htb]
    simp [ingestRows, hone]

/-- C7 witness: the missing-`UWP` row aborts ingestion while the
missing-`Name` row is skipped with ingestion continuing. -/
theorem C7_missing_column_behaviour_witness :
    ingestRows [("A", 0)] [noUwpRow] emptyDB 0 =
      ⟨emptyDB, 0, some "KeyError: UWP"⟩ ∧
    ingestRows [("A", 0)] [noNameRow] emptyDB 0 =
      ingestRows [("A", 0)] [] emptyDB 1 := by
  refine ⟨(C7_missing_column_behaviour [("A", 0)] emptyDB 0 noUwpRow []).1 (by decide), ?_⟩
  exact (C7_missing_column_behaviour [("A", 0)] emptyDB 0 noNameRow []).2 "A867A67-9"
    ⟨'A', '8', '6', '7', 'A', '6', '7', '9'⟩ (by decide) (by decide)
    (Or.inl (by decide))

/-- C8: the Milieu/Sector/Subsector hierarchy is committed as one unit
before any World row is processed — the row loop never alters the three
hierarchy tables and only appends to `worlds` — and each World row is
its own transaction: a skipped row leaves the store exactly as it was
(plus one logged skip) and a committed row appends exactly its World,
so every previously committed World of the sector survives later row
failures. -/
theorem C8_transaction_discipline (sector : ApiSectorM) (rows : List Row) (db : DB) :
    (populate_database sector rows db).db.milieus =
      (commitHierarchy sector db).db.milieus ∧
    (populate_database sector rows db).db.sectors =
      (commitHierarchy sector db).db.sectors ∧
    (populate_database sector rows db).db.subsectors =
      (commitHierarchy sector db).db.subsectors ∧
    (∃ tail, (populate_database sector rows db).db.worlds =
      (commitHierarchy sector db).db.worlds ++ tail) ∧
    (∀ (smap : List (String × Nat)) (row : Row) (rest : List Row) (db' : DB) (k : Nat),
      ingestOneRow smap row = RowOutcome.skip →
      ingestRows smap (row :: rest) db' k = ingestRows smap rest db' (k + 1)) ∧
    (∀ (smap : List (String × Nat)) (row : Row) (rest : List Row) (db' : DB) (k : Nat)
      (w : WorldRow),
      ingestOneRow smap row = RowOutcome.committed w →
      ingestRows smap (row :: rest) db' k =
        ingestRows smap rest { db' with worlds := db'.worlds ++ [w] } k) := by
  obtain ⟨hm, hs, hsub, tail, hw⟩ :=
    ingestRows_frame (commitHierarchy sector db).subsectorMap rows
      (commitHierarchy sector db).db 0
  refine ⟨hm, hs, hsub, ⟨tail, hw⟩, ?_, ?_⟩
  · intro smap row rest db' k h
    simp [ingestRows, h]
  · intro smap row rest db' k w h
    simp [ingestRows, h]

/-- C8 witness: the per-row transaction equations at the §8 rows — the
`Broken` row is skipped leaving the store untouched, and the Regina row
commits exactly its World. -/
theorem C8_transaction_discipline_witness :
    ingestRows [("A", 0)] [brokenRow, reginaRow] emptyDB 0 =
      ingestRows [("A", 0)] [reginaRow] emptyDB 1 ∧
    ingestRows [("A", 0)] [reginaRow] emptyDB 1 =
      ingestRows [("A", 0)] [] { emptyDB with worlds := emptyDB.worlds ++ [reginaWorld] } 1 := by
  have h := C8_transaction_discipline reginaSectorMeta [] emptyDB
  exact ⟨h.2.2.2.2.1 [("A", 0)] brokenRow [reginaRow] emptyDB 0 (by decide),
    h.2.2.2.2.2 [("A", 0)] reginaRow [] emptyDB 1 reginaWorld (by decide)⟩

/-- The number of milieu rows carrying a given name. -/
def countMilieu (milieus : List MilieuRow) (name : String) : Nat :=
  (milieus.filter (fun m => m.name == name)).length

/-- `filter_by(name=...).first()` finds nothing exactly when no milieu
row has the name. -/
theorem findMilieu_eq_none_iff (milieus : List MilieuRow) (name : String) :
    findMilieu milieus name = none ↔ ∀ m ∈ milieus, m.name ≠ name := by
  simp [findMilieu, List.findIdx?_eq_none_iff]

/-- The milieus table after the hierarchy commit. -/
theorem commitHierarchy_milieus (sector : ApiSectorM) (db : DB) :
    (commitHierarchy sector db).db.milieus =
      match findMilieu db.milieus sector.milieu with
      | some _ => db.milieus
      | none => db.milieus ++ [⟨sector.milieu⟩] := rfl

/-- C9: Milieu creation is find-or-create by name.  Running
`populate_database` never removes a milieu row (the table only grows at
the end), leaves exactly one row with the sector's milieu tag when none
existed and reuses the existing rows otherwise, changes the count of no
other name, and preserves name-uniqueness of the table.  In particular
two sectors carrying the same tag yield a single Milieu row. -/
theorem C9_milieu_find_or_create (sector : ApiSectorM) (rows : List Row) (db : DB) :
    (∃ tail, (populate_database sector rows db).db.milieus = db.milieus ++ tail) ∧
    countMilieu (populate_database sector rows db).db.milieus sector.milieu =
      (if countMilieu db.milieus sector.milieu = 0 then 1
       else countMilieu db.milieus sector.milieu) ∧
    (∀ n, n ≠ sector.milieu →
      countMilieu (populate_database sector rows db).db.milieus n =
        countMilieu db.milieus n) ∧
    (db.milieus.Pairwise (fun a b => a.name ≠ b.name) →
      (populate_database sector rows db).db.milieus.Pairwise
        (fun a b => a.name ≠ b.name)) := by
  obtain ⟨hm0, -, -, -⟩ :=
    ingestRows_frame (commitHierarchy sector db).subsectorMap rows
      (commitHierarchy sector db).db 0
  have hm : (populate_database sector rows db).db.milieus =
      (commitHierarchy sector db).db.milieus := hm0
  cases h : findMilieu db.milieus sector.milieu with
  | some i =>
    have hmil : (commitHierarchy sector db).db.milieus = db.milieus := by
      rw [commitHierarchy_milieus, h]
    have hcount : countMilieu db.milieus sector.milieu ≠ 0 := by
      intro h0
      have hnil : ∀ m ∈ db.milieus, m.name ≠ sector.milieu := by
        intro m hmem heq
        have := List.filter_eq_nil_iff.mp (List.length_eq_zero.mp h0) m hmem
        simp [heq] at this
      rw [(findMilieu_eq_none_iff db.milieus sector.milieu).mpr hnil] at h
      cases h
    refine ⟨⟨[], by simp [hm, hmil]⟩, ?_, ?_, ?_⟩
    · rw [hm, hmil, if_neg hcount]
    · intro n hn
      rw [hm, hmil]
    · intro hp
      rw [hm, hmil]
      exact hp
  | none =>
    have hmil : (commitHierarchy sector db).db.milieus =
        db.milieus ++ [⟨sector.milieu⟩] := by
      rw [commitHierarchy_milieus, h]
    have hall : ∀ m ∈ db.milieus, m.name ≠ sector.milieu :=
      (findMilieu_eq_none_iff db.milieus sector.milieu).mp h
    have hcount0 : countMilieu db.milieus sector.milieu = 0 := by
      rw [countMilieu, List.length_eq_zero, List.filter_eq_nil_iff]
      intro m hmem
      simp [hall m hmem]
    refine ⟨⟨[⟨sector.milieu⟩], by rw [hm, hmil]⟩, ?_, ?_, ?_⟩
    · rw [hm, hmil, if_pos hcount0, countMilieu, List.filter_append]
      have : countMilieu db.milieus sector.milieu = 0 := hcount0
      rw [countMilieu] at this
      simp [this]
    · intro n hn
      rw [hm, hmil, countMilieu, List.filter_append]
      have : (List.filter (fun m => m.name == n) [(⟨sector.milieu⟩ : MilieuRow)]) = [] := by
        simp [Ne.symm hn]
      rw [this, List.append_nil, countMilieu]
    · intro hp
      rw [hm, hmil]
      refine List.pairwise_append.mpr ⟨hp, List.pairwise_singleton _ _, ?_⟩
      intro a ha b hb
      have hb2 : b = ⟨sector.milieu⟩ := by simpa using hb
      rw [hb2]
      exact hall a ha

/-- C9 witness: ingesting the same milieu tag twice from the empty
store leaves exactly one `M1105` row and no row for any other tag. -/
theorem C9_milieu_find_or_create_witness :
    countMilieu (populate_database reginaSectorMeta []
        (populate_database reginaSectorMeta [] emptyDB).db).db.milieus
      reginaSectorMeta.milieu = 1 ∧
    countMilieu (populate_database reginaSectorMeta [] emptyDB).db.milieus "M1120" = 0 := by
  constructor
  · rw [(C9_milieu_find_or_create reginaSectorMeta []
      (populate_database reginaSectorMeta [] emptyDB).db).2.1]
    decide
  · rw [(C9_milieu_find_or_create reginaSectorMeta [] emptyDB).2.2.1 "M1120" (by decide)]
    decide

/-- C10: the filler character at position 7 of the UWP and every
character beyond position 8 are never inspected: two rows identical
except for those characters decode to the same eight codes and drive
the whole row loop — including the committed World, the skip log and
any abort — to the same result. -/
theorem C10_filler_and_trailing_ignored (smap : List (String × Nat)) (db : DB)
    (k : Nat) (rest : List Row) (rowRest : Row)
    (c0 c1 c2 c3 c4 c5 c6 x7 y7 c8 : Char) (xs ys : List Char) :
    decodeUWP (c0 :: c1 :: c2 :: c3 :: c4 :: c5 :: c6 :: x7 :: c8 :: xs) =
      decodeUWP (c0 :: c1 :: c2 :: c3 :: c4 :: c5 :: c6 :: y7 :: c8 :: ys) ∧
    ingestRows smap
        ((("UWP", String.mk (c0 :: c1 :: c2 :: c3 :: c4 :: c5 :: c6 :: x7 :: c8 :: xs))
          :: rowRest) :: rest) db k =
      ingestRows smap
        ((("UWP", String.mk (c0 :: c1 :: c2 :: c3 :: c4 :: c5 :: c6 :: y7 :: c8 :: ys))
          :: rowRest) :: rest) db k := by
  exact ⟨rfl, rfl⟩
